import Mathlib

/-!
Verification development for the `realtime-pubsub-client` library
(`src/libs/client.ts` together with the interfaces module).

The embedding models the runtime values the client manipulates as a small
JSON-like value type (`JValue`, with an explicit `jsUndefined` for JavaScript's
`undefined`), and translates the client's operations into pure Lean
functions:

* `onMessage` — the inbound frame handler (deserialization of text /
  blob / binary frames, construction of the `IncomingMessage`, and the
  routing decision);
* `dispatch` — the reaction of the three internal handlers installed by
  the `RealtimeClient` constructor (`priv/acks.ack`, `*.response`,
  `main.welcome`) to a routed inbound envelope event;
* `publish`, `send`, `reply`, `disconnect` — the outbound operations;
* `waitFor` / `waitForAck` / `waitForReply` — the correlation layer.

The event-key wildcard matching (`keyMatches`) and the `waitFor` race are
behaviour of the external `eventemitter2` dependency (not part of this
repository's sources); they are modelled from the specification, which
defines dot-delimited keys with `*` as a single-segment joker and
`waitFor` as racing one subscription against a `timeout`-millisecond
timer.  Everything else is translated directly from `src/libs/client.ts`.
-/

set_option maxHeartbeats 1000000

/-- A JavaScript runtime value as manipulated by the client.  JSON numbers
are modelled as integers (no claim involves numeric payloads).  `jsUndefined`
models JavaScript's `undefined`, the result of reading an absent object
field. -/
inductive JValue where
  | jsUndefined
  | null
  | bool (b : Bool)
  | num (n : Int)
  | str (s : String)
  | arr (elements : List JValue)
  | obj (fields : List (String × JValue))

/-- First-match field lookup in an object's field list (JSON parsing
produces objects with unique keys, so first-match equals last-wins). -/
def lookupField (k : String) : List (String × JValue) → JValue
  | [] => .jsUndefined
  | (k2, v) :: rest => if k2 = k then v else lookupField k rest

/-- JavaScript property read `v[k]`: an absent field, or a read on a
non-object primitive, yields `undefined`.  (A read on `null`/`undefined`
throws a TypeError in JavaScript; call sites that can receive those model
the throw explicitly, see `jsMember`.) -/
def JValue.get (v : JValue) (k : String) : JValue :=
  match v with
  | .obj fields => lookupField k fields
  | _ => .jsUndefined

/-- JavaScript truthiness, as used by `if (connectionId)` and
`if (messageType)` in the source. -/
def JValue.truthy : JValue → Bool
  | .jsUndefined => false
  | .null => false
  | .bool b => b
  | .num n => n != 0
  | .str s => s != ""
  | .arr _ => true
  | .obj _ => true

mutual

/-- JavaScript string coercion as performed by template literals such as
`` `ack.${message.data.data}` `` in the source. -/
def JValue.jsToString : JValue → String
  | .jsUndefined => "undefined"
  | .null => "null"
  | .bool b => cond b "true" "false"
  | .num n => toString n
  | .str s => s
  | .arr elements => jsJoinElements elements
  | .obj _ => "[object Object]"
termination_by structural v => v

/-- `Array.prototype.toString`: elements joined with commas, `null` and
`undefined` elements rendering as the empty string. -/
def jsJoinElements : List JValue → String
  | [] => ""
  | [.jsUndefined] => ""
  | [.null] => ""
  | [e] => JValue.jsToString e
  | .jsUndefined :: rest => "," ++ jsJoinElements rest
  | .null :: rest => "," ++ jsJoinElements rest
  | e :: rest => JValue.jsToString e ++ "," ++ jsJoinElements rest
termination_by structural l => l

end

/-- Optional chaining `v?.k`: short-circuits to `undefined` on
`null`/`undefined`, otherwise reads the property. -/
def optChain (v : JValue) (k : String) : JValue :=
  match v with
  | .jsUndefined => .jsUndefined
  | .null => .jsUndefined
  | _ => v.get k

/-- JavaScript property read `v.k` at a call site with no optional
chaining: reading a property of `null`/`undefined` throws a TypeError. -/
inductive ClientError where
  | transportNotEstablished  -- 'WebSocket connection is not established'
  | missingConnectionId      -- 'Connection ID is not available in the message'
  | typeError                -- JavaScript TypeError (property read on null/undefined)

def jsMember (v : JValue) (k : String) : Except ClientError JValue :=
  match v with
  | .jsUndefined => .error .typeError
  | .null => .error .typeError
  | _ => .ok (v.get k)

/-- The decoded inbound message handed to handlers
(`IncomingMessage` in `interfaces.ts`).  The declared TypeScript types of
`topic`/`messageType` are `string`, but at runtime they are whatever the
decoded JSON carried, so they are modelled as `JValue`. -/
structure IncomingMessage where
  topic : JValue
  messageType : JValue
  data : JValue
  compression : Bool

/-- Dot-splitting of an event key, as performed by the emitter on both
subscription patterns and emitted keys ("a.b.c" into ["a","b","c"],
"" into [""]). -/
def splitDots : List Char → List (List Char)
  | [] => [[]]
  | c :: cs =>
    if c = '.' then [] :: splitDots cs
    else
      match splitDots cs with
      | [] => [[c]]
      | seg :: rest => (c :: seg) :: rest

/-- Segment-for-segment matching of a subscription pattern against an
emitted key, with `*` as a single-segment joker. -/
def matchSegs : List (List Char) → List (List Char) → Bool
  | [], [] => true
  | p :: ps, s :: ss => (p == ['*'] || p == s) && matchSegs ps ss
  | _, _ => false

/-- Modelled from the spec: the event router of the external
`eventemitter2` dependency matches a subscription pattern against an
emitted key by exact segment-for-segment comparison of the dot-delimited
segments, `*` matching any single segment. -/
def keyMatches (pattern key : String) : Bool :=
  matchSegs (splitDots pattern.toList) (splitDots key.toList)

/-- `s.startsWith(pre)` on strings. -/
def strStartsWith (s pre : String) : Bool :=
  pre.toList.isPrefixOf s.toList

/-- One event emission on the client's emitter: the event key and the
argument list it was emitted with. -/
structure Emission where
  key : String
  args : List JValue

/-- The observable outcome of one internal handler invocation: either the
events it emitted, or a TypeError escaping it (a property read on
`null`/`undefined`), in which case it emitted nothing. -/
inductive HandlerOutcome where
  | emitted (events : List Emission)
  | threw

/-- The events visible on the emitter after a handler ran: a handler that
threw emitted none. -/
def HandlerOutcome.events : HandlerOutcome → List Emission
  | .emitted es => es
  | .threw => []

/-- Handler installed on `priv/acks.ack`: re-emits
`` `ack.${message.data.data}` `` with no arguments.  The plain read
`message.data.data` throws a TypeError when `message.data` is
`null`/`undefined` (modelled by `jsMember`), in which case nothing is
emitted. -/
def ackHandler (message : IncomingMessage) : HandlerOutcome :=
  match jsMember message.data "data" with
  | .error _ => .threw
  | .ok v => .emitted [⟨"ack." ++ v.jsToString, []⟩]

/-- Handler installed on `*.response`: when the topic starts with `priv/`,
re-emits `` `response.${res.id}` `` with the single argument
`res = message.data.payload`.  The plain reads `message.data.payload` and
`res.id` throw a TypeError when their receiver is `null`/`undefined`
(modelled by `jsMember`), in which case nothing is emitted. -/
def responseHandler (message : IncomingMessage) : HandlerOutcome :=
  if strStartsWith message.topic.jsToString "priv/" then
    match jsMember message.data "payload" with
    | .error _ => .threw
    | .ok res =>
      match jsMember res "id" with
      | .error _ => .threw
      | .ok i => .emitted [⟨"response." ++ i.jsToString, [res]⟩]
  else .emitted []

/-- Handler installed on `main.welcome`: emits `session.started` with
`message.data.connection`; the plain read throws a TypeError when
`message.data` is `null`/`undefined`. -/
def welcomeHandler (message : IncomingMessage) : HandlerOutcome :=
  match jsMember message.data "connection" with
  | .error _ => .threw
  | .ok v => .emitted [⟨"session.started", [v]⟩]

/-- The event key an inbound envelope is routed under:
`` `${topic}.${messageType}` ``. -/
def routeKey (m : IncomingMessage) : String :=
  m.topic.jsToString ++ "." ++ m.messageType.jsToString

/-- The internal re-emissions produced when a routed inbound envelope
event fires: each of the three constructor-installed handlers runs iff
its subscription pattern matches the emitted key (registration order). -/
def dispatch (m : IncomingMessage) : List Emission :=
  (if keyMatches "priv/acks.ack" (routeKey m) then (ackHandler m).events else []) ++
  (if keyMatches "*.response" (routeKey m) then (responseHandler m).events else []) ++
  (if keyMatches "main.welcome" (routeKey m) then (welcomeHandler m).events else [])

/-- An inbound transport frame.  `text`/`blob`/`binary` carry the textual
content of the frame (a blob's content is obtained by an asynchronous
read, an ArrayBuffer's by UTF-8 decoding); `other` is any unrecognized
framing. -/
inductive Frame where
  | text (s : String)
  | blob (s : String)
  | binary (s : String)
  | other

/-- `typeof event.data === 'string'`. -/
def frameIsText : Frame → Bool
  | .text _ => true
  | _ => false

/-- The ways the deserialization step of `onMessage` can fail (each is
caught and routed to `handleError`, which emits the `error` event). -/
inductive DecodeFailure where
  | invalidJson           -- JSON.parse threw
  | unrecognizedFraming   -- 'Unable to deserialize incoming message'
  | deserializerThrew     -- the configured custom deserializer threw

/-- The observable outcome of `onMessage` for one inbound frame. -/
inductive OnMessageResult where
  /-- Deserialization failed: `handleError` ran, the `error` event was
  emitted, the frame was dropped, the session continues. -/
  | errored (e : DecodeFailure)
  /-- The decoded value was `null`/`undefined`: destructuring it throws a
  TypeError outside the try block (uncaught in the async handler). -/
  | crashed
  /-- `messageType` was falsy: no event emitted for this frame. -/
  | dropped (message : IncomingMessage)
  /-- An event was emitted under `` `${topic}.${messageType}` `` carrying
  the message (and a bound reply function). -/
  | routed (key : String) (message : IncomingMessage)

/-- The deserialization step of `onMessage`: a configured custom
deserializer replaces the built-in logic entirely; otherwise blob, text
and ArrayBuffer frames are JSON-parsed from their textual content and any
other framing raises 'Unable to deserialize incoming message'.  `parse`
stands for `JSON.parse` (`none` = it threw); a deserializer's `none`
likewise models a throw. -/
def deserializeFrame (deserializer : Option (Frame → Option JValue))
    (parse : String → Option JValue) : Frame → Except DecodeFailure JValue
  | frame =>
    match deserializer with
    | some d =>
      match d frame with
      | some v => .ok v
      | none => .error .deserializerThrew
    | none =>
      match frame with
      | .blob s | .text s | .binary s =>
        match parse s with
        | some v => .ok v
        | none => .error .invalidJson
      | .other => .error .unrecognizedFraming

/-- `RealtimeClient.onMessage`: deserialize the frame, build the
`IncomingMessage` (with `compression` true iff the frame was not textual),
and emit `` `${topic}.${messageType}` `` iff `messageType` is truthy. -/
def onMessage (deserializer : Option (Frame → Option JValue))
    (parse : String → Option JValue) (frame : Frame) : OnMessageResult :=
  match deserializeFrame deserializer parse frame with
  | .error e => .errored e
  | .ok v =>
    match v with
    | .jsUndefined => .crashed
    | .null => .crashed
    | _ =>
      let message : IncomingMessage :=
        ⟨v.get "topic", v.get "messageType", v.get "data", !frameIsText frame⟩
      if (v.get "messageType").truthy then
        .routed (message.topic.jsToString ++ "." ++ message.messageType.jsToString) message
      else
        .dropped message

/-- Options for an outgoing message (`MessageOptions` in
`interfaces.ts`). -/
structure MessageOptions where
  id : Option String
  messageType : Option String
  compress : Option Bool

/-- The `data` object of an outbound wire envelope.  `none` fields model
`undefined` values, which `JSON.stringify` omits. -/
structure OutboundData where
  topic : Option String
  messageType : Option String
  compress : Option Bool
  payload : JValue
  id : String

/-- An outbound wire envelope `{type, data}` as produced by
`JSON.stringify` in `publish`/`send`. -/
structure OutboundEnvelope where
  type : String
  data : OutboundData

/-- The `WaitFor` factory returned by `publish`/`send`, holding the
message options whose `id` was definitely assigned by the caller. -/
structure WaitFor where
  id : String

/-- The client state relevant to the claims: the transport handle
(`this.ws`, `none` after `disconnect` or before `connect`). -/
structure ClientState where
  ws : Option Nat

/-- `options.id = options.id || this.getRandomId()`: the id used for an
outgoing message, given the id `generated` that `getRandomId` would
return for this call.  JavaScript `||` treats the empty string as falsy. -/
def finalIdOf (generated : String) (options : MessageOptions) : String :=
  match options.id with
  | some s => if s = "" then generated else s
  | none => generated

/-- `RealtimeClient.publish`: requires an established transport handle,
assigns the message id, transmits one `publish` envelope and returns a
`WaitFor` factory bound to that id. -/
def publish (st : ClientState) (generated : String) (topic : String)
    (payload : JValue) (options : Option MessageOptions) :
    Except ClientError (OutboundEnvelope × WaitFor) :=
  match st.ws with
  | none => .error .transportNotEstablished
  | some _ =>
    let opts := options.getD ⟨none, none, none⟩
    let i := finalIdOf generated opts
    .ok (⟨"publish", ⟨some topic, opts.messageType, opts.compress, payload, i⟩⟩, ⟨i⟩)

/-- `RealtimeClient.send`: like `publish` but transmits a `message`
envelope with no topic. -/
def send (st : ClientState) (generated : String)
    (payload : JValue) (options : Option MessageOptions) :
    Except ClientError (OutboundEnvelope × WaitFor) :=
  match st.ws with
  | none => .error .transportNotEstablished
  | some _ =>
    let opts := options.getD ⟨none, none, none⟩
    let i := finalIdOf generated opts
    .ok (⟨"message", ⟨none, opts.messageType, opts.compress, payload, i⟩⟩, ⟨i⟩)

/-- The envelopes actually transmitted by one `publish`/`send`/`reply`
call: one on success, none on a thrown error. -/
def txOf (r : Except ClientError (OutboundEnvelope × WaitFor)) : List OutboundEnvelope :=
  match r with
  | .ok (env, _) => [env]
  | .error _ => []

/-- The bound `reply` function created for an inbound message: reads
`message.data.client?.connectionId`, and if it is truthy publishes a
`response`-typed `ResponseMessage` envelope on `` `priv/${connectionId}` ``;
otherwise throws 'Connection ID is not available in the message'. -/
def reply (st : ClientState) (generated : String) (message : IncomingMessage)
    (data : JValue) (status : String) (options : Option MessageOptions) :
    Except ClientError (OutboundEnvelope × WaitFor) :=
  match jsMember message.data "client" with
  | .error e => .error e
  | .ok clientField =>
    let connectionId := optChain clientField "connectionId"
    if connectionId.truthy then
      publish st generated ("priv/" ++ connectionId.jsToString)
        (.obj [("data", data), ("status", .str status), ("id", message.data.get "id")])
        (some ⟨none, some "response", options.bind (fun o => o.compress)⟩)
    else
      .error .missingConnectionId

/-- `reply` called without a `status` argument: the parameter defaults to
`'ok'`. -/
def replyDefaultStatus (st : ClientState) (generated : String)
    (message : IncomingMessage) (data : JValue) (options : Option MessageOptions) :
    Except ClientError (OutboundEnvelope × WaitFor) :=
  reply st generated message data "ok" options

/-- `RealtimeClient.disconnect`: closes the handle when present and clears
the reference.  Returns the new state together with the list of handles
closed by this call. -/
def disconnect (st : ClientState) : ClientState × List Nat :=
  match st.ws with
  | some h => (⟨none⟩, [h])
  | none => (st, [])

/-- One event emission with the (relative) time in milliseconds at which
it occurs, used to model the race inside `waitFor`. -/
structure TimedEmission where
  time : Nat
  key : String
  args : List JValue

/-- Outcome of an awaited `waitFor`: either resolved with the event's
argument list, or failed with a timeout error carrying its message. -/
inductive WaitOutcome where
  | resolved (args : List JValue)
  | timedOut (errorMessage : String)

/-- The first emission matching `key` strictly before `timeout`. -/
def firstHit (key : String) (timeout : Nat) : List TimedEmission → Option (List JValue)
  | [] => none
  | e :: rest =>
    if e.key = key ∧ e.time < timeout then some e.args
    else firstHit key timeout rest

/-- Modelled from the spec: `waitFor(eventKey, {timeout})` of the external
`eventemitter2` dependency subscribes once to `eventKey` and races that
subscription against a timer of `timeout` milliseconds; if the event fires
first the awaitable resolves with the event's arguments, otherwise it
fails with a timeout error whose message is `"timeout"`. -/
def waitFor (events : List TimedEmission) (key : String) (timeout : Nat) : WaitOutcome :=
  match firstHit key timeout events with
  | some args => .resolved args
  | none => .timedOut "timeout"

/-- `WaitFor.waitForAck(timeout)`: awaits event key
`` `ack.${this.options.id}` ``. -/
def waitForAck (w : WaitFor) (events : List TimedEmission) (timeout : Nat) : WaitOutcome :=
  waitFor events ("ack." ++ w.id) timeout

/-- `WaitFor.waitForAck()` with the `timeout` parameter left at its
default of 5000 milliseconds. -/
def waitForAckDefault (w : WaitFor) (events : List TimedEmission) : WaitOutcome :=
  waitForAck w events 5000

/-- `WaitFor.waitForReply(timeout)`: awaits event key
`` `response.${this.options.id}` ``. -/
def waitForReply (w : WaitFor) (events : List TimedEmission) (timeout : Nat) : WaitOutcome :=
  waitFor events ("response." ++ w.id) timeout

/-- `WaitFor.waitForReply()` with the `timeout` parameter left at its
default of 5000 milliseconds. -/
def waitForReplyDefault (w : WaitFor) (events : List TimedEmission) : WaitOutcome :=
  waitForReply w events 5000

/-- Whether a call raised (threw) an error. -/
def raisesError (r : Except ClientError (OutboundEnvelope × WaitFor)) : Bool :=
  match r with
  | .error _ => true
  | .ok _ => false

/-- A concrete stand-in for `JSON.parse`, used to exercise `onMessage` on
specific frames: the frame `"A"` decodes to `{}` (no `topic`, no
`messageType`), the frame `"B"` to `{"messageType": "evt"}` (no `topic`),
and anything else fails to parse. -/
def parseTable : String → Option JValue := fun s =>
  if s = "A" then some (.obj [])
  else if s = "B" then some (.obj [("messageType", .str "evt")])
  else none

/-- Replace the `compression` flag inside an `onMessage` outcome. -/
def setCompression (b : Bool) : OnMessageResult → OnMessageResult
  | .errored e => .errored e
  | .crashed => .crashed
  | .dropped m => .dropped ⟨m.topic, m.messageType, m.data, b⟩
  | .routed k m => .routed k ⟨m.topic, m.messageType, m.data, b⟩

/-! ## Helper lemmas -/

theorem dispatch_ack_eq (d : JValue) (cmp : Bool) :
    dispatch ⟨.str "priv/acks", .str "ack", d, cmp⟩ =
      (ackHandler ⟨.str "priv/acks", .str "ack", d, cmp⟩).events := by
  have h1 : keyMatches "priv/acks.ack" (routeKey ⟨.str "priv/acks", .str "ack", d, cmp⟩)
      = true := rfl
  have h2 : keyMatches "*.response" (routeKey ⟨.str "priv/acks", .str "ack", d, cmp⟩)
      = false := rfl
  have h3 : keyMatches "main.welcome" (routeKey ⟨.str "priv/acks", .str "ack", d, cmp⟩)
      = false := rfl
  unfold dispatch
  rw [h1, h2, h3]
  simp

theorem jsMember_eq_ok (v : JValue) (k : String) (hn : v ≠ JValue.null)
    (hu : v ≠ JValue.jsUndefined) : jsMember v k = .ok (v.get k) := by
  rcases v with _ | _ | b | n | s2 | es | fs
  · exact absurd rfl hu
  · exact absurd rfl hn
  all_goals rfl

theorem jsMember_of_get (d : JValue) (k : String) (v : JValue) (h : d.get k = v)
    (hu : v ≠ JValue.jsUndefined) : jsMember d k = .ok v := by
  rcases d with _ | _ | b | n | s2 | es | fs
  all_goals try (simp only [JValue.get] at h; exact absurd h.symm hu)
  exact congrArg Except.ok h

theorem firstHit_isSome_iff (key : String) (timeout : Nat) (es : List TimedEmission) :
    (firstHit key timeout es).isSome = true ↔
      ∃ e ∈ es, e.key = key ∧ e.time < timeout := by
  induction es with
  | nil => simp [firstHit]
  | cons e rest ih =>
    simp only [firstHit]
    split
    · simp_all
    · simp only [List.mem_cons, ih]
      constructor
      · rintro ⟨a, ha, h⟩
        exact ⟨a, Or.inr ha, h⟩
      · rintro ⟨a, ha | ha, h⟩
        · subst ha; exact absurd h (by assumption)
        · exact ⟨a, ha, h⟩

theorem splitDots_ne_nil (cs : List Char) : splitDots cs ≠ [] := by
  cases cs with
  | nil => simp [splitDots]
  | cons c rest =>
    simp only [splitDots]
    split
    · simp
    · split <;> simp

theorem splitDots_no_dot (cs : List Char) (h : cs.contains '.' = false) :
    splitDots cs = [cs] := by
  induction cs with
  | nil => rfl
  | cons c rest ih =>
    simp only [List.contains_cons, Bool.or_eq_false_iff, beq_eq_false_iff_ne] at h
    obtain ⟨hc, hrest⟩ := h
    simp only [splitDots, if_neg (Ne.symm hc), ih hrest]

theorem splitDots_append_dot (xs ys : List Char) (h : xs.contains '.' = false) :
    splitDots (xs ++ '.' :: ys) = xs :: splitDots ys := by
  induction xs with
  | nil => simp [splitDots]
  | cons c rest ih =>
    simp only [List.contains_cons, Bool.or_eq_false_iff, beq_eq_false_iff_ne] at h
    obtain ⟨hc, hrest⟩ := h
    simp only [List.cons_append, splitDots, if_neg (Ne.symm hc), List.append_eq, ih hrest]

theorem splitDots_length (cs : List Char) :
    (splitDots cs).length = cs.count '.' + 1 := by
  induction cs with
  | nil => rfl
  | cons c rest ih =>
    simp only [splitDots, List.count_cons]
    split
    · subst c
      simp [ih]
    · rcases hs : splitDots rest with _ | ⟨seg, segs⟩
      · exact absurd hs (splitDots_ne_nil rest)
      · rw [hs] at ih
        simp only [List.length_cons] at ih ⊢
        simp only [ih]
        split
        · next heq =>
            exact absurd (beq_iff_eq.mp heq) (by assumption)
        · omega

theorem matchSegs_length (ps ss : List (List Char)) (h : matchSegs ps ss = true) :
    ps.length = ss.length := by
  induction ps generalizing ss with
  | nil => cases ss with
    | nil => rfl
    | cons s rest => simp [matchSegs] at h
  | cons p rest ih =>
    cases ss with
    | nil => simp [matchSegs] at h
    | cons s srest =>
      simp only [matchSegs, Bool.and_eq_true] at h
      simp [ih srest h.2]

theorem count_pos_of_contains (cs : List Char) (c : Char) (h : cs.contains c = true) :
    0 < cs.count c := by
  induction cs with
  | nil => simp [List.contains] at h
  | cons a rest ih =>
    simp only [List.contains_cons, Bool.or_eq_true, beq_iff_eq] at h
    simp only [List.count_cons]
    rcases h with h | h
    · subst h; simp
    · have := ih h; omega

theorem strToList_append (s t : String) : (s ++ t).toList = s.toList ++ t.toList := by
  cases s
  cases t
  rfl

theorem matchSegs_pair (p1 p2 s1 s2 : List Char) :
    matchSegs [p1, p2] [s1, s2] =
      ((p1 == ['*'] || p1 == s1) && (p2 == ['*'] || p2 == s2)) := by
  simp [matchSegs]

theorem dispatch_response_eq (t : String) (d : JValue) (cmp : Bool) :
    dispatch ⟨.str t, .str "response", d, cmp⟩ =
      if (!t.toList.contains '.') then
        (responseHandler ⟨.str t, .str "response", d, cmp⟩).events
      else [] := by
  have hkey : (routeKey ⟨.str t, .str "response", d, cmp⟩).toList
      = t.toList ++ '.' :: "response".toList := by
    show ((t ++ ".") ++ "response").toList = _
    rw [strToList_append, strToList_append, List.append_assoc]
    rfl
  by_cases hdot : t.toList.contains '.' = true
  · -- the topic contains a dot: the emitted key has at least three
    -- segments, so no two-segment subscription pattern matches
    have hlen : (splitDots (routeKey ⟨.str t, .str "response", d, cmp⟩).toList).length
        = t.toList.count '.' + 2 := by
      rw [hkey, splitDots_length, List.count_append]
      have : ('.' :: "response".toList).count '.' = 1 := by decide
      omega
    have hpos := count_pos_of_contains _ _ hdot
    have hfalse : ∀ pat : String, (splitDots pat.toList).length = 2 →
        keyMatches pat (routeKey ⟨.str t, .str "response", d, cmp⟩) = false := by
      intro pat hp
      by_contra hcontra
      have htrue : keyMatches pat (routeKey ⟨.str t, .str "response", d, cmp⟩) = true := by
        revert hcontra
        cases keyMatches pat (routeKey ⟨.str t, .str "response", d, cmp⟩) <;> simp
      have := matchSegs_length _ _ htrue
      rw [hp, hlen] at this
      omega
    unfold dispatch
    rw [hfalse "priv/acks.ack" (by decide), hfalse "*.response" (by decide),
      hfalse "main.welcome" (by decide), hdot]
    simp
  · -- dot-free topic: the key splits into exactly [topic, "response"]
    have hdf : t.toList.contains '.' = false := by
      revert hdot
      cases t.toList.contains '.' <;> simp
    have hsegs : splitDots (routeKey ⟨.str t, .str "response", d, cmp⟩).toList
        = [t.toList, "response".toList] := by
      rw [hkey, splitDots_append_dot _ _ hdf, splitDots_no_dot _ (by decide)]
    have h1 : keyMatches "priv/acks.ack" (routeKey ⟨.str t, .str "response", d, cmp⟩) = false := by
      unfold keyMatches
      rw [hsegs, show splitDots "priv/acks.ack".toList
        = ["priv/acks".toList, "ack".toList] from rfl, matchSegs_pair]
      have hb : ("ack".toList == ['*'] || "ack".toList == "response".toList) = false := by decide
      rw [hb, Bool.and_false]
    have h2 : keyMatches "*.response" (routeKey ⟨.str t, .str "response", d, cmp⟩) = true := by
      unfold keyMatches
      rw [hsegs, show splitDots "*.response".toList
        = [['*'], "response".toList] from rfl, matchSegs_pair]
      simp
    have h3 : keyMatches "main.welcome" (routeKey ⟨.str t, .str "response", d, cmp⟩) = false := by
      unfold keyMatches
      rw [hsegs, show splitDots "main.welcome".toList
        = ["main".toList, "welcome".toList] from rfl, matchSegs_pair]
      have hb : ("welcome".toList == ['*'] || "welcome".toList == "response".toList) = false := by
        decide
      rw [hb, Bool.and_false]
    unfold dispatch
    rw [h1, h2, h3, hdf]
    simp

theorem responseHandler_eq_of_ok (t : String) (d p i : JValue) (cmp : Bool)
    (hp : d.get "payload" = p) (hpn : p ≠ JValue.null) (hpu : p ≠ JValue.jsUndefined)
    (hi : p.get "id" = i) :
    responseHandler ⟨.str t, .str "response", d, cmp⟩ =
      if strStartsWith t "priv/" then .emitted [⟨"response." ++ i.jsToString, [p]⟩]
      else .emitted [] := by
  have hmem : jsMember d "payload" = .ok p := jsMember_of_get d "payload" p hp hpu
  have hid : jsMember p "id" = .ok i := by
    rw [jsMember_eq_ok p "id" hpn hpu, hi]
  simp only [responseHandler, JValue.jsToString, hmem, hid]

theorem responseHandler_threw (t : String) (d2 : JValue) (cmp : Bool)
    (hd2 : d2.get "payload" = JValue.null ∨ d2.get "payload" = JValue.jsUndefined)
    (hs : strStartsWith t "priv/" = true) :
    responseHandler ⟨.str t, .str "response", d2, cmp⟩ = .threw := by
  rcases hd2 with hd2 | hd2
  · -- the payload field is null: the read `res.id` throws
    have hmem : jsMember d2 "payload" = .ok JValue.null :=
      jsMember_of_get d2 "payload" JValue.null hd2 (fun hx => JValue.noConfusion hx)
    simp only [responseHandler, JValue.jsToString, hs, hmem]
    simp [jsMember]
  · -- the payload read yields undefined (or `message.data` itself is
    -- nullish and the first read already throws)
    rcases hd : d2 with _ | _ | b | n | s2 | es | fs <;> rw [hd] at hd2
    · simp [responseHandler, JValue.jsToString, hs, jsMember]
    · simp [responseHandler, JValue.jsToString, hs, jsMember]
    · simp [responseHandler, JValue.jsToString, hs, jsMember, JValue.get]
    · simp [responseHandler, JValue.jsToString, hs, jsMember, JValue.get]
    · simp [responseHandler, JValue.jsToString, hs, jsMember, JValue.get]
    · simp [responseHandler, JValue.jsToString, hs, jsMember, JValue.get]
    · have hmem : jsMember (JValue.obj fs) "payload" = .ok JValue.jsUndefined :=
        congrArg Except.ok hd2
      simp only [responseHandler, JValue.jsToString, hs, hmem]
      simp [jsMember]

theorem dispatch_response_ok (t : String) (d p i : JValue) (cmp : Bool)
    (hp : d.get "payload" = p) (hpn : p ≠ JValue.null) (hpu : p ≠ JValue.jsUndefined)
    (hi : p.get "id" = i) :
    dispatch ⟨.str t, .str "response", d, cmp⟩ =
      if (!t.toList.contains '.') && strStartsWith t "priv/" then
        [⟨"response." ++ i.jsToString, [p]⟩]
      else [] := by
  rw [dispatch_response_eq, responseHandler_eq_of_ok t d p i cmp hp hpn hpu hi]
  cases hb : t.toList.contains '.' <;> cases hsw : strStartsWith t "priv/" <;>
    simp [HandlerOutcome.events]

/-! ## Claims -/

/-- C1: for every request id `x` and timeout `t`, the awaitable returned
by `waitForAck` on the factory bound to `x` resolves iff an `ack.<x>`
event is emitted before the deadline `t` (default 5000 ms); otherwise it
fails with a timeout error whose message is `"timeout"`; and the key it
awaits is exactly `ack.<x>`. -/
theorem c1_waitForAck_spec (x : String) (timeout : Nat) (events : List TimedEmission) :
    ((∃ args, waitForAck ⟨x⟩ events timeout = .resolved args) ↔
      ∃ e ∈ events, e.key = "ack." ++ x ∧ e.time < timeout) ∧
    ((¬ ∃ e ∈ events, e.key = "ack." ++ x ∧ e.time < timeout) →
      waitForAck ⟨x⟩ events timeout = .timedOut "timeout") ∧
    waitForAck ⟨x⟩ events timeout = waitFor events ("ack." ++ x) timeout ∧
    waitForAckDefault ⟨x⟩ events = waitForAck ⟨x⟩ events 5000 := by
  have hiff := firstHit_isSome_iff ("ack." ++ x) timeout events
  refine ⟨?_, ?_, rfl, rfl⟩
  · rw [← hiff]
    unfold waitForAck waitFor
    cases hfh : firstHit ("ack." ++ x) timeout events <;> simp
  · intro hne
    rw [← hiff] at hne
    unfold waitForAck waitFor
    cases hfh : firstHit ("ack." ++ x) timeout events with
    | none => rfl
    | some a => rw [hfh] at hne; simp at hne

theorem c1_waitForAck_spec_witness :
    waitForAck ⟨"7"⟩ [] 100 = .timedOut "timeout" :=
  (c1_waitForAck_spec "7" 100 []).2.1 (by simp)

/-- C2: a decoded inbound envelope with topic `priv/acks` and messageType
`ack` makes the client emit `ack.<id>`, where `<id>` is the envelope
payload's `data` field. -/
theorem c2_ack_reemission (d : JValue) (x : String) (cmp : Bool)
    (h : d.get "data" = .str x) :
    dispatch ⟨.str "priv/acks", .str "ack", d, cmp⟩ = [⟨"ack." ++ x, []⟩] := by
  have hmem : jsMember d "data" = .ok (.str x) :=
    jsMember_of_get d "data" (.str x) h (fun hx => JValue.noConfusion hx)
  rw [dispatch_ack_eq]
  simp [ackHandler, hmem, HandlerOutcome.events, JValue.jsToString]

theorem c2_ack_reemission_witness :
    dispatch ⟨.str "priv/acks", .str "ack", .obj [("data", .str "42")], false⟩ =
      [⟨"ack.42", []⟩] :=
  c2_ack_reemission (.obj [("data", .str "42")]) "42" false rfl

/-- C3 (counterexample): an inbound envelope with messageType `response`
whose topic `priv/a.b` starts with `priv/` but contains a dot produces a
three-segment event key, which the two-segment `*.response` subscription
does not match — no `response.<id>` event is emitted, contradicting the
claim. -/
theorem c3_response_reemission_cex :
    dispatch ⟨.str "priv/a.b", .str "response",
        .obj [("payload", .obj [("id", .str "7")])], false⟩ = [] ∧
      strStartsWith "priv/a.b" "priv/" = true := ⟨rfl, rfl⟩

/-- C3 (amended): for a decoded inbound envelope with messageType
`response` and string topic `t`, whose payload's `payload` field holds a
non-nullish ResponseMessage `p`, the client emits `response.<id>` carrying
`p` (with `<id>` that message's `id`) iff `t` starts with `priv/` AND `t`
contains no dot (so that `` `${t}.response` `` is a two-segment key).
When the payload's `payload` field is `null` or absent/`undefined`, the
handler's property reads throw a TypeError and nothing is emitted; and
when `t` does not start with `priv/`, no event is emitted for any
payload. -/
theorem c3_response_reemission_amended (t : String) (d p i : JValue) (cmp : Bool)
    (hp : d.get "payload" = p) (hpn : p ≠ JValue.null) (hpu : p ≠ JValue.jsUndefined)
    (hi : p.get "id" = i) :
    (dispatch ⟨.str t, .str "response", d, cmp⟩ =
      if (!t.toList.contains '.') && strStartsWith t "priv/" then
        [⟨"response." ++ i.jsToString, [p]⟩]
      else []) ∧
    (∀ d2, d2.get "payload" = JValue.null ∨ d2.get "payload" = JValue.jsUndefined →
      strStartsWith t "priv/" = true →
      responseHandler ⟨.str t, .str "response", d2, cmp⟩ = .threw ∧
      dispatch ⟨.str t, .str "response", d2, cmp⟩ = []) ∧
    (∀ d2, strStartsWith t "priv/" = false →
      dispatch ⟨.str t, .str "response", d2, cmp⟩ = []) := by
  refine ⟨dispatch_response_ok t d p i cmp hp hpn hpu hi, ?_, ?_⟩
  · intro d2 hd2 hs
    have hth := responseHandler_threw t d2 cmp hd2 hs
    refine ⟨hth, ?_⟩
    rw [dispatch_response_eq, hth]
    cases hb : t.toList.contains '.' <;> simp [HandlerOutcome.events]
  · intro d2 hs
    have hemit : responseHandler ⟨.str t, .str "response", d2, cmp⟩ = .emitted [] := by
      simp [responseHandler, JValue.jsToString, hs]
    rw [dispatch_response_eq, hemit]
    cases hb : t.toList.contains '.' <;> simp [HandlerOutcome.events]

theorem c3_response_reemission_amended_witness :
    dispatch ⟨.str "priv/c1", .str "response",
        .obj [("payload", .obj [("id", .str "9")])], false⟩ =
      [⟨"response.9", [.obj [("id", .str "9")]]⟩] := by
  rw [(c3_response_reemission_amended "priv/c1"
    (.obj [("payload", .obj [("id", .str "9")])]) (.obj [("id", .str "9")])
    (.str "9") false rfl (fun hx => JValue.noConfusion hx)
    (fun hx => JValue.noConfusion hx) rfl).1]
  rfl

/-- C9: `disconnect` closes the transport handle when one is present and
clears the handle reference; it is idempotent — a second call leaves the
state unchanged and closes nothing. -/
theorem c9_disconnect_idempotent (st : ClientState) :
    disconnect st = (⟨none⟩, st.ws.toList) ∧
    (disconnect (disconnect st).1).1 = (disconnect st).1 ∧
    (disconnect (disconnect st).1).2 = [] := by
  obtain ⟨ws⟩ := st
  cases ws <;> simp [disconnect]

/-- C4: when the inbound message's payload carries no usable (truthy)
connection identity, the bound reply fails immediately with an error and
transmits no envelope. -/
theorem c4_reply_missing_identity (st : ClientState) (generated : String)
    (msg : IncomingMessage) (data : JValue) (status : String)
    (options : Option MessageOptions)
    (h : (optChain (msg.data.get "client") "connectionId").truthy = false) :
    raisesError (reply st generated msg data status options) = true ∧
    txOf (reply st generated msg data status options) = [] := by
  rcases hd : msg.data with _ | _ | b | n | s2 | es | fs <;>
    rw [hd] at h <;>
    simp [reply, jsMember, hd, raisesError, txOf, h]

theorem c4_reply_missing_identity_witness :
    raisesError (reply ⟨some 0⟩ "g" ⟨.str "t", .str "mt", .obj [], false⟩
        .null "ok" none) = true ∧
    txOf (reply ⟨some 0⟩ "g" ⟨.str "t", .str "mt", .obj [], false⟩
        .null "ok" none) = [] :=
  c4_reply_missing_identity ⟨some 0⟩ "g" ⟨.str "t", .str "mt", .obj [], false⟩
    .null "ok" none rfl

/-- C5: when the inbound message's payload carries connection identity `c`
and message id `i`, and a transport handle is present, the bound reply
publishes a `publish`-kind envelope with messageType `response` on topic
`priv/<c>` whose payload is the ResponseMessage `{data, status, id: i}`;
the `status` parameter defaults to `"ok"` when omitted. -/
theorem c5_reply_publishes_response (hws : Nat) (st : ClientState) (generated : String)
    (msg : IncomingMessage) (data : JValue) (status : String) (c : String) (i : JValue)
    (hw : st.ws = some hws)
    (hc : optChain (msg.data.get "client") "connectionId" = .str c)
    (hne : c ≠ "")
    (hi : msg.data.get "id" = i) :
    reply st generated msg data status none =
      .ok (⟨"publish", ⟨some ("priv/" ++ c), some "response", none,
        .obj [("data", data), ("status", .str status), ("id", i)], generated⟩⟩,
        ⟨generated⟩) ∧
    replyDefaultStatus st generated msg data none = reply st generated msg data "ok" none := by
  refine ⟨?_, rfl⟩
  rcases hd : msg.data with _ | _ | b | n | s2 | es | fs <;> rw [hd] at hc hi
  · simp [optChain, JValue.get] at hc
  · simp [optChain, JValue.get] at hc
  · simp [optChain, JValue.get] at hc
  · simp [optChain, JValue.get] at hc
  · simp [optChain, JValue.get] at hc
  · simp [optChain, JValue.get] at hc
  · simp [reply, jsMember, publish, finalIdOf, hd, hc, hi, hw, Option.bind,
      JValue.truthy, JValue.jsToString, hne]

theorem c5_reply_publishes_response_witness :
    reply ⟨some 0⟩ "g" ⟨.str "chat", .str "hello",
        .obj [("client", .obj [("connectionId", .str "abc")]), ("id", .str "m1")], false⟩
      (.str "hi") "done" none =
      .ok (⟨"publish", ⟨some "priv/abc", some "response", none,
        .obj [("data", .str "hi"), ("status", .str "done"), ("id", .str "m1")], "g"⟩⟩,
        ⟨"g"⟩) :=
  (c5_reply_publishes_response 0 ⟨some 0⟩ "g"
    ⟨.str "chat", .str "hello",
      .obj [("client", .obj [("connectionId", .str "abc")]), ("id", .str "m1")], false⟩
    (.str "hi") "done" "abc" (.str "m1") rfl rfl (by decide) rfl).1

/-- C6 (counterexample): with a transport handle present and a
caller-supplied id of `""` (falsy under JavaScript `||`), `publish`
discards it and uses the generated id `"g1"` — so a generated id is
assigned even though the caller did supply one. -/
theorem c6_publish_id_cex :
    publish ⟨some 0⟩ "g1" "top" .null (some ⟨some "", none, none⟩) =
      .ok (⟨"publish", ⟨some "top", none, none, .null, "g1"⟩⟩, ⟨"g1"⟩) ∧
    ("g1" : String) ≠ "" := ⟨rfl, by decide⟩

/-- C6 (amended): `publish`/`send` raise the transport-not-established
error iff no transport handle is present; with a handle they assign a
generated id exactly when the caller supplied none or supplied the (falsy)
empty string, transmit one envelope carrying the resulting id, and return
a `WaitFor` factory whose `waitForAck`/`waitForReply` keys are bound to
that same id. -/
theorem c6_publish_send_amended (st : ClientState) (generated topic : String)
    (payload : JValue) (options : MessageOptions) :
    (publish st generated topic payload (some options) = .error .transportNotEstablished ↔
      st.ws = none) ∧
    (send st generated payload (some options) = .error .transportNotEstablished ↔
      st.ws = none) ∧
    (∀ hws, st.ws = some hws →
      publish st generated topic payload (some options) =
        .ok (⟨"publish", ⟨some topic, options.messageType, options.compress, payload,
          finalIdOf generated options⟩⟩, ⟨finalIdOf generated options⟩)) ∧
    (∀ hws, st.ws = some hws →
      send st generated payload (some options) =
        .ok (⟨"message", ⟨none, options.messageType, options.compress, payload,
          finalIdOf generated options⟩⟩, ⟨finalIdOf generated options⟩)) ∧
    ((options.id = none ∨ options.id = some "") → finalIdOf generated options = generated) ∧
    (∀ s, options.id = some s → s ≠ "" → finalIdOf generated options = s) ∧
    (∀ w events t2, waitForAck w events t2 = waitFor events ("ack." ++ w.id) t2 ∧
      waitForReply w events t2 = waitFor events ("response." ++ w.id) t2) ∧
    publish st generated topic payload none =
      publish st generated topic payload (some ⟨none, none, none⟩) := by
  obtain ⟨ws⟩ := st
  refine ⟨?_, ?_, ?_, ?_, ?_, ?_, fun w events t2 => ⟨rfl, rfl⟩, rfl⟩
  · cases ws <;> simp [publish]
  · cases ws <;> simp [send]
  · intro hws h
    have : ws = some hws := h
    subst this
    rfl
  · intro hws h
    have : ws = some hws := h
    subst this
    rfl
  · intro h
    rcases h with h | h <;> simp [finalIdOf, h]
  · intro s2 hs hnz
    simp [finalIdOf, hs, hnz]

theorem c6_publish_send_amended_witness :
    publish ⟨some 0⟩ "g" "top" .null (some ⟨none, some "mt", none⟩) =
      .ok (⟨"publish", ⟨some "top", some "mt", none, .null, "g"⟩⟩, ⟨"g"⟩) :=
  (c6_publish_send_amended ⟨some 0⟩ "g" "top" .null ⟨none, some "mt", none⟩).2.2.1 0 rfl

/-- C7 (counterexample): a valid-JSON frame `{}` lacking `messageType` is
dropped silently — `onMessage` neither emits an `error` event nor raises a
DecodeError; and a valid-JSON frame `{"messageType": "evt"}` lacking
`topic` is not dropped at all: it is routed under the literal key
`undefined.evt`.  Both contradict the claim that a missing required field
is surfaced via the `error` event with the frame dropped. -/
theorem c7_decode_cex :
    onMessage none parseTable (.text "A") = .dropped ⟨.jsUndefined, .jsUndefined, .jsUndefined, false⟩ ∧
    onMessage none parseTable (.text "B") =
      .routed "undefined.evt" ⟨.jsUndefined, .str "evt", .jsUndefined, false⟩ := ⟨rfl, rfl⟩

/-- C7 (amended): `onMessage` surfaces a failure via the `error` event
only when the frame is undecodable (invalid JSON, or an unrecognized
framing); a decoded frame whose `messageType` is absent or falsy is
dropped silently with no `error` event; a decoded frame with a
`messageType` but no `topic` is not dropped — it is routed under the
literal topic segment `undefined`.  In every case the session
continues. -/
theorem c7_decode_amended (parse : String → Option JValue) (s : String) :
    (parse s = none → onMessage none parse (.text s) = .errored .invalidJson) ∧
    (onMessage none parse .other = .errored .unrecognizedFraming) ∧
    (∀ v, parse s = some v → v ≠ .null → v ≠ .jsUndefined →
      (v.get "messageType").truthy = false →
      onMessage none parse (.text s) =
        .dropped ⟨v.get "topic", v.get "messageType", v.get "data", false⟩) ∧
    (∀ v m, parse s = some v → v.get "topic" = .jsUndefined → v.get "messageType" = .str m →
      m ≠ "" →
      onMessage none parse (.text s) =
        .routed ("undefined." ++ m) ⟨.jsUndefined, .str m, v.get "data", false⟩) := by
  refine ⟨?_, rfl, ?_, ?_⟩
  · intro h
    simp [onMessage, deserializeFrame, h]
  · intro v hv hnn hnu ht
    rcases v with _ | _ | b | n | s2 | es | fs
    · exact absurd rfl hnu
    · exact absurd rfl hnn
    all_goals simp [onMessage, deserializeFrame, hv, ht, frameIsText]
  · intro v m hv htop hmt hm
    rcases v with _ | _ | b | n | s2 | es | fs
    · simp [JValue.get] at hmt
    · simp [JValue.get] at hmt
    all_goals
      simp [onMessage, deserializeFrame, hv, htop, hmt, frameIsText,
        JValue.truthy, JValue.jsToString, hm]

theorem c7_decode_amended_witness :
    onMessage none parseTable (.text "B") =
      .routed "undefined.evt" ⟨.jsUndefined, .str "evt", .jsUndefined, false⟩ :=
  (c7_decode_amended parseTable "B").2.2.2 (.obj [("messageType", .str "evt")]) "evt"
    rfl rfl rfl (by decide)

/-- C8: with the built-in decoding, a blob or binary frame decodes to the
same outcome as the equivalent textual frame, the `compression` flag
(true for non-text framings, false for text) being the only
difference. -/
theorem c8_framing_equivalence (parse : String → Option JValue) (s : String) :
    onMessage none parse (.blob s) = setCompression true (onMessage none parse (.text s)) ∧
    onMessage none parse (.binary s) = setCompression true (onMessage none parse (.text s)) ∧
    onMessage none parse (.text s) = setCompression false (onMessage none parse (.text s)) := by
  refine ⟨?_, ?_, ?_⟩ <;>
  · cases hp : parse s with
    | none => simp [onMessage, deserializeFrame, hp, setCompression]
    | some v =>
      rcases v with _ | _ | b | n | s2 | es | fs <;>
        simp only [onMessage, deserializeFrame, hp, frameIsText, Bool.not_true,
          Bool.not_false, setCompression] <;>
        split <;>
        simp [setCompression]

/-- C10: the internal re-emissions carry asymmetric arguments — `ack.<id>`
is emitted with no arguments (so a `waitForAck` resolves with an empty
argument list), while `response.<id>` is emitted with exactly one
argument, the ResponseMessage (so a `waitForReply` resolves with that
message as its single element). -/
theorem c10_emission_arity (d1 : JValue) (x : String) (cp1 : Bool)
    (h1 : d1.get "data" = .str x)
    (t : String) (d2 p i : JValue) (cp2 : Bool)
    (hp : d2.get "payload" = p) (hpn : p ≠ JValue.null) (hpu : p ≠ JValue.jsUndefined)
    (hi : p.get "id" = i)
    (ht : strStartsWith t "priv/" = true) (hdot : t.toList.contains '.' = false) :
    dispatch ⟨.str "priv/acks", .str "ack", d1, cp1⟩ = [⟨"ack." ++ x, []⟩] ∧
    dispatch ⟨.str t, .str "response", d2, cp2⟩ =
      [⟨"response." ++ i.jsToString, [p]⟩] ∧
    waitFor [⟨0, "ack." ++ x, []⟩] ("ack." ++ x) 5000 = .resolved [] ∧
    waitFor [⟨0, "response." ++ i.jsToString, [p]⟩] ("response." ++ i.jsToString) 5000 =
      .resolved [p] := by
  refine ⟨?_, ?_, ?_, ?_⟩
  · have hmem : jsMember d1 "data" = .ok (.str x) :=
      jsMember_of_get d1 "data" (.str x) h1 (fun hx => JValue.noConfusion hx)
    rw [dispatch_ack_eq]
    simp [ackHandler, hmem, HandlerOutcome.events, JValue.jsToString]
  · rw [dispatch_response_ok t d2 p i cp2 hp hpn hpu hi, hdot, ht]
    rfl
  · simp [waitFor, firstHit]
  · simp [waitFor, firstHit]

theorem c10_emission_arity_witness :
    dispatch ⟨.str "priv/acks", .str "ack", .obj [("data", .str "id1")], false⟩ =
      [⟨"ack.id1", []⟩] :=
  (c10_emission_arity (.obj [("data", .str "id1")]) "id1" false rfl
    "priv/z" (.obj [("payload", .obj [("id", .str "r1")])]) (.obj [("id", .str "r1")])
    (.str "r1") false rfl (fun hx => JValue.noConfusion hx)
    (fun hx => JValue.noConfusion hx) rfl rfl rfl).1
